import Mathlib

/-!
Verification of the update-and-merge orchestration engine of
`action-state-repo-generate-pr` against its specification.

The development shallowly embeds:
* `src/model/PullRequestBuilder.js` — branch identity, the per-coordinate
  coordinator `openPRUpdatingImage`, `updateImageInFile`, `tryToMerge`,
  `openNewPullRequest`;
* `src/unnamed/part_001` — the batch `run` loop;
* the YAML utilities (`determineAutoMerge`, `autoMergeFromYaml`,
  `modifyImage`, `loadYaml`), whose implementation files are not present
  under `src/`; these are modelled from the specification and pinned to the
  observable behaviour recorded in `src/test/YamlUtils.test.js` and the test
  file `src/unnamed/part_000`.

External collaborators (git command execution, the GitHub REST client) are
modelled as environments supplying each call's result, following the spec's
§6 classification of them as thin I/O wrappers.
-/

namespace StateRepoPR

/-! ## Association lists

The YAML documents of the repository (manifest documents mapping service
names to records, policy documents mapping applications to per-environment
booleans) are modelled as association lists over `String` keys. -/

/-- First-match lookup in an association list. -/
def lookupA {α : Type} (k : String) : List (String × α) → Option α
  | [] => none
  | (k', v) :: rest => if k' = k then some v else lookupA k rest

/-- Replace the value at the first occurrence of key `k`; append the pair if
the key is absent. -/
def setA {α : Type} (k : String) (v : α) : List (String × α) → List (String × α)
  | [] => [(k, v)]
  | (k', v') :: rest => if k' = k then (k, v) :: rest else (k', v') :: setA k v rest

/-! ## Branch identity

`src/model/PullRequestBuilder.js`, constructor (line 14):
`this.branchName =
  ⟨automated/update-image-${tenant}-${application}-${environment}-${service}⟩`. -/

/-- The inputs handed to `PullRequestBuilder`'s constructor
(`prInputs` in `src/model/PullRequestBuilder.js`). -/
structure PRInputs where
  tenant : String
  application : String
  environment : String
  service : String
  newImage : String
  reviewers : List String
  deriving Repr, DecidableEq

/-- Branch name template of `PullRequestBuilder`'s constructor
(`src/model/PullRequestBuilder.js` line 14). -/
def mkBranchName (tenant application environment service : String) : String :=
  "automated/update-image-" ++ tenant ++ "-" ++ application ++ "-"
    ++ environment ++ "-" ++ service

/-- The `branchName` field computed by the constructor from the full input
record: it reads only the four coordinate fields. -/
def branchNameOf (p : PRInputs) : String :=
  mkBranchName p.tenant p.application p.environment p.service

/-! ## Per-coordinate coordinator (`openPRUpdatingImage`)

`src/model/PullRequestBuilder.js` lines 20-74. External collaborator calls
(git execution, the GitHub client, the YAML utilities) are supplied by an
environment record holding each call's result for this coordinate. -/

deriving instance DecidableEq for Except

/-- `UpdateOutcome` of spec §3: the terminal result of processing one request. -/
inductive Outcome where
  | merged (prNumber : Nat)
  | openedUnmerged (prNumber : Nat)
  | skipped
  | failed (msg : String)
  deriving Repr, DecidableEq

/-- Results of the collaborator calls made while processing one coordinate. -/
structure CoordEnv where
  /-- result of `createPRBranchFrom`: `true` when a fresh branch was created,
  `false` when the existing remote branch was reset. -/
  branchCreated : Bool
  /-- result of `yamlUtils.modifyImage(tenant, application, environment,
  service, newImage)`: the old image value, or the thrown error. -/
  modifyImage : Except String String
  /-- result of `sedUpdatedImageFileToOrigin` (git add / commit / push). -/
  pushResult : Except String Unit
  /-- result of `ghClient.branchHasOpenPR(branchName)`: `0` when no open PR
  targets the branch, the PR number otherwise. -/
  branchOpenPR : Nat
  /-- PR number handed out by `ghClient.createPr` when a PR is created. -/
  newPrNumber : Nat
  /-- result of `ghClient.createAndSetLabels`. -/
  labelsResult : Except String Unit
  /-- result of `ghClient.prAddReviewers`. -/
  reviewersResult : Except String Unit
  /-- result of `yamlUtils.determineAutoMerge(tenant, application, environment)`. -/
  autoMerge : Except String Bool
  /-- result of `ghClient.mergePr(prNumber)` when a merge is requested. -/
  mergeResult : Except String Unit
  /-- `ghClient.getActionUrl()`. -/
  actionUrl : String
  deriving Repr, DecidableEq

/-- Observable side effects of one coordinator run. -/
structure Effects where
  /-- step 3 ran (a commit/push was attempted). -/
  pushAttempted : Bool
  /-- step 3 failed and the failure was narrated as a warning. -/
  pushFailureWarned : Bool
  /-- `(title, body)` passed to `ghClient.createPr`, `none` when no PR was created. -/
  prCreated : Option (String × String)
  /-- the PR number used for labels/reviewers/merge, `none` when the
  coordinate was abandoned before step 4. -/
  prNumber : Option Nat
  /-- step 5 ended in the catch clause (labels or reviewers failed). -/
  annotationWarned : Bool
  /-- `ghClient.mergePr` was called. -/
  mergeAttempted : Bool
  deriving Repr, DecidableEq

/-- The effects of a coordinate abandoned at step 2: nothing was pushed,
no PR was created and no merge was attempted. -/
def noEffects : Effects :=
  { pushAttempted := false, pushFailureWarned := false, prCreated := none,
    prNumber := none, annotationWarned := false, mergeAttempted := false }

/-- `updateImageInFile` (`src/model/PullRequestBuilder.js` lines 97-104):
propagate `modifyImage`'s result, and throw when the returned old image
equals the requested new image. -/
def updateImageInFile (modifyResult : Except String String) (newImage : String) :
    Except String String :=
  match modifyResult with
  | .error e => .error e
  | .ok oldImageName =>
    if oldImageName = newImage then
      .error "The image we were trying to update has not changed!"
    else .ok oldImageName

/-- `tryToMerge` (`src/model/PullRequestBuilder.js` lines 161-174), as the
truthiness of its return value: `true` exactly when the resolver returned
`true` and the merge call succeeded. A resolver or merge failure is caught
and the function falls through to an `undefined` (falsy) return. -/
def tryToMerge (autoMerge : Except String Bool) (mergeResult : Except String Unit) : Bool :=
  match autoMerge with
  | .error _ => false
  | .ok b =>
    if b then
      match mergeResult with
      | .ok _ => true
      | .error _ => false
    else b

/-- `mergePr` is called exactly when the resolver returned `true`
(`src/model/PullRequestBuilder.js` lines 164-166). -/
def mergeAttemptedOf (autoMerge : Except String Bool) : Bool :=
  match autoMerge with
  | .ok true => true
  | _ => false

/-- PR title template of `openNewPullRequest`
(`src/model/PullRequestBuilder.js` line 127). -/
def mkPrTitle (newImage : String) : String :=
  "📦 Service image update `" ++ newImage ++ "`"

/-- PR body template of `openNewPullRequest`
(`src/model/PullRequestBuilder.js` lines 128-129). -/
def mkPrBody (actionUrl oldImageName newImage service : String) : String :=
  "🤖 Automated PR created in [this](" ++ actionUrl ++ ") workflow execution \n\n"
    ++ "Updated image `" ++ oldImageName ++ "` to `" ++ newImage ++ "` in service `"
    ++ service ++ "`"

/-- `addPRReviewers` (`src/model/PullRequestBuilder.js` lines 143-152):
reviewers are only requested when the list is non-empty; a client failure is
rethrown with a prefixed message. -/
def addPRReviewers (reviewers : List String) (reviewersResult : Except String Unit) :
    Except String (List String) :=
  if reviewers.length > 0 then
    match reviewersResult with
    | .ok _ => .ok reviewers
    | .error e => .error ("Error adding reviewers: " ++ e)
  else .ok reviewers

/-- The PR number step 4 settles on: the open PR's number when one exists,
the freshly created PR's number otherwise
(`src/model/PullRequestBuilder.js` lines 49-55). -/
def usedPrNumber (env : CoordEnv) : Nat :=
  if env.branchOpenPR = 0 then env.newPrNumber else env.branchOpenPR

/-- `openPRUpdatingImage` (`src/model/PullRequestBuilder.js` lines 20-74):
the per-coordinate workflow. Step 2's catch abandons the coordinate with a
skip narration; step 3's catch only logs; step 4 reuses or creates the PR;
step 5's catch only logs; step 6 narrates merged / not merged from
`tryToMerge`'s truthiness. -/
def openPRUpdatingImage (env : CoordEnv) (p : PRInputs) : Outcome × Effects :=
  -- step 1: createPRBranchFrom(sourceBranch); only narration depends on it
  -- step 2: modify the service's image inside images.yaml
  match updateImageInFile env.modifyImage p.newImage with
  | .error _ => (Outcome.skipped, noEffects)
  | .ok oldImage =>
    -- step 3: push changes to origin; failures are caught and logged
    let pushWarned := match env.pushResult with
      | .ok _ => false
      | .error _ => true
    -- step 4: create the pull request unless the branch already has one
    let created : Option (String × String) :=
      if env.branchOpenPR = 0 then
        some (mkPrTitle p.newImage, mkPrBody env.actionUrl oldImage p.newImage p.service)
      else none
    let prNumber := usedPrNumber env
    -- step 5: labels and reviewers; failures are caught and logged
    let annWarned := match env.labelsResult, addPRReviewers p.reviewers env.reviewersResult with
      | .error _, _ => true
      | .ok _, .error _ => true
      | .ok _, .ok _ => false
    -- step 6: determine auto-merge and try to merge
    let outcome := if tryToMerge env.autoMerge env.mergeResult then
        Outcome.merged prNumber
      else
        Outcome.openedUnmerged prNumber
    (outcome,
     { pushAttempted := true, pushFailureWarned := pushWarned, prCreated := created,
       prNumber := some prNumber, annotationWarned := annWarned,
       mergeAttempted := mergeAttemptedOf env.autoMerge })

/-! ## Stateful model: repeated runs for one coordinate

For the idempotence claims a run must be composed with a second run over the
repository state it left behind. The state tracks, for the one coordinate
under consideration, the image value recorded on the remote source branch
(`git reset --hard origin/<sourceBranch>` in `createPRBranchFrom`, lines
84/88, makes the working tree equal to it), the pushed update branch, the
open PR, and the working-tree manifest. A successful PR merge lands the
update branch's content on the source branch (the PR's base) and closes the
PR; a push to the update branch (`git push --force origin <branchName>`,
line 116) never changes the source branch. -/

structure RepoState where
  /-- image value of the coordinate's service on `origin/<sourceBranch>`. -/
  sourceImage : String
  /-- image value on `origin/<branchName>`; `none` while never pushed. -/
  branchImage : Option String
  /-- number of the open PR for `branchName`; `none` when there is none. -/
  openPR : Option Nat
  /-- image value in the local working-tree manifest. -/
  workingImage : String
  deriving Repr, DecidableEq

/-- Collaborator results that are independent of the tracked state. -/
structure RunEnv where
  /-- PR number handed out by `ghClient.createPr` when a PR is created. -/
  newPrNumber : Nat
  /-- result of `yamlUtils.determineAutoMerge`. -/
  autoMerge : Except String Bool
  /-- result of `ghClient.mergePr` when a merge is requested. -/
  mergeResult : Except String Unit
  /-- `ghClient.getActionUrl()`. -/
  actionUrl : String
  deriving Repr, DecidableEq

/-- One full `openPRUpdatingImage` run over the tracked repository state
(commit and push assumed to succeed; their failure is analysed on the
stateless model). Mirrors `src/model/PullRequestBuilder.js` lines 20-74. -/
def runOnce (env : RunEnv) (p : PRInputs) (st : RepoState) :
    Outcome × RepoState × Effects :=
  -- step 1: reset the working tree to origin/<sourceBranch>
  let working := st.sourceImage
  -- step 2: modifyImage returns the old value and writes the new one
  let oldImage := working
  if oldImage = p.newImage then
    -- updateImageInFile throws; the catch narrates a skip and returns
    (Outcome.skipped, { st with workingImage := p.newImage }, noEffects)
  else
    -- step 3: commit and force-push the update branch
    let st₁ := { st with workingImage := p.newImage, branchImage := some p.newImage }
    -- step 4: reuse the open PR or create a new one
    let reuse := st₁.openPR
    let prNumber := match reuse with
      | some n => n
      | none => env.newPrNumber
    let created : Option (String × String) := match reuse with
      | some _ => none
      | none => some (mkPrTitle p.newImage,
                      mkPrBody env.actionUrl oldImage p.newImage p.service)
    let st₂ := match reuse with
      | some _ => st₁
      | none => { st₁ with openPR := some env.newPrNumber }
    let effects : Effects :=
      { pushAttempted := true, pushFailureWarned := false, prCreated := created,
        prNumber := some prNumber, annotationWarned := false,
        mergeAttempted := mergeAttemptedOf env.autoMerge }
    -- step 6: merging the PR lands the branch on its base and closes the PR
    if tryToMerge env.autoMerge env.mergeResult then
      (Outcome.merged prNumber,
       { st₂ with sourceImage := p.newImage, openPR := none }, effects)
    else
      (Outcome.openedUnmerged prNumber, st₂, effects)

/-! ## Batch runner (`run` of `src/unnamed/part_001`)

The loop body's collaborator results, one record per request of the input
matrix. `modifyServicesImage` either throws (the exception escapes the loop
into the `run`-level catch, which calls `core.setFailed`) or returns the
list of old images, empty when no service's image changed. -/

structure BatchItemEnv where
  /-- result of `yamlUtils.modifyServicesImage(...)` (line 35). -/
  modifyServicesImage : Except String (List String)
  /-- result of `git commit` (line 46). -/
  commitResult : Except String Unit
  /-- PR number returned by `ghClient.createPr` (line 58). -/
  prNumber : Nat
  /-- result of `ghClient.prAddReviewers` (line 65). -/
  reviewersResult : Except String Unit
  /-- result of `yamlUtils.determineAutoMerge` (line 77). -/
  autoMerge : Except String Bool
  /-- result of `ghClient.mergePr` (line 78). -/
  mergeResult : Except String Unit
  deriving Repr, DecidableEq

/-- How the batch loop ended. -/
inductive BatchStop where
  /-- the `for` loop consumed the whole input matrix. -/
  | completed
  /-- `break` after an empty `oldImages` (line 40). -/
  | skipBreak
  /-- `break` after a commit failure (line 49). -/
  | commitBreak
  /-- an exception escaped the loop; `core.setFailed` ended the run (line 90). -/
  | batchFailed (msg : String)
  deriving Repr, DecidableEq

/-- `run` of `src/unnamed/part_001` (lines 25-91): iterate the input matrix,
producing the terminal outcome of each request that reached one. A skipped
request records its skip and then `break`s; a commit failure `break`s; a
thrown error ends the whole batch through the outer catch. -/
def runBatch : List BatchItemEnv → List Outcome × BatchStop
  | [] => ([], BatchStop.completed)
  | env :: rest =>
    match env.modifyServicesImage with
    | .error e => ([], BatchStop.batchFailed e)
    | .ok oldImages =>
      if oldImages.isEmpty then
        ([Outcome.skipped], BatchStop.skipBreak)
      else
        match env.commitResult with
        | .error _ => ([], BatchStop.commitBreak)
        | .ok _ =>
          let oc := if tryToMerge env.autoMerge env.mergeResult then
              Outcome.merged env.prNumber
            else
              Outcome.openedUnmerged env.prNumber
          let next := runBatch rest
          (oc :: next.1, next.2)

/-! ## Auto-merge policy resolution

The implementations (`autoMergeFromYaml` of the old utils module and
`determineAutoMerge` of `src/utils/YamlUtils.js`) are not present under
`src/`; only their test files are. Both are modelled from the spec, with the
behaviour pinned to the expectations recorded in those tests. A policy
document is a mapping from application names to per-environment booleans
(spec §3); a missing file is modelled as `none`. -/

/-- Auto-merge policy document: application name to environment-to-boolean
mapping (spec §3). -/
abbrev PolicyDoc := List (String × List (String × Bool))

/-- Errors of the policy resolvers (spec §7 taxonomy). -/
inductive PolicyError where
  | readFile (msg : String)
  | applicationNotFound (application : String)
  | invalidEnvironment (environment : String) (supported : List String)
  | environmentNotConfigured (environment : String) (application : String)
  deriving Repr, DecidableEq

/-- The enumerated environment set of spec §3. -/
def supportedEnvironments : List String := ["des", "pre", "pro"]

/-- Modelled from the spec: `autoMergeFromYaml(configFile, application,
environment)` — the resolution algorithm of §4.3, whose implementation file
is not under `src/`. Behaviour pinned by the test file `src/unnamed/part_000`
lines 33-61: an unreadable file throws `Error trying to read configFile:`,
a missing application throws `Application not found: <application>`, an
environment outside `[des, pre, pro]` throws
`Enviroment <environment> not in [des, pre, pro]`, and otherwise the
configured boolean is returned. -/
def autoMergeFromYaml (doc : Option PolicyDoc) (application environment : String) :
    Except PolicyError Bool :=
  match doc with
  | none => .error (.readFile "Error trying to read configFile: ")
  | some d =>
    match lookupA application d with
    | none => .error (.applicationNotFound application)
    | some entry =>
      if environment ∈ supportedEnvironments then
        match lookupA environment entry with
        | some b => .ok b
        | none => .error (.environmentNotConfigured environment application)
      else
        .error (.invalidEnvironment environment supportedEnvironments)

/-- Modelled from the spec: `determineAutoMerge(tenant, application,
environment)` of §4.3 — the implementation `src/utils/YamlUtils.js` is not
under `src/`. Behaviour pinned by `src/test/YamlUtils.test.js` lines 4-23:
the configured boolean is returned for any environment key present in the
tenant's document (the test expects `true` for environment `dev`), and every
lookup failure — missing file, application or environment — surfaces as the
single error `Enviroment <environment> not found for application
<application> for tenant <tenant>`. -/
def determineAutoMerge (doc : Option PolicyDoc) (tenant application environment : String) :
    Except String Bool :=
  let found : Option Bool := do
    let d ← doc
    let entry ← lookupA application d
    lookupA environment entry
  match found with
  | some b => .ok b
  | none => .error ("Enviroment " ++ environment ++ " not found for application "
      ++ application ++ " for tenant " ++ tenant)

/-! ## Manifest store (`modifyImage` / `loadYaml`)

Modelled from the spec (§4.2): the implementation `src/utils/YamlUtils.js`
is not under `src/`; behaviour pinned by `src/test/YamlUtils.test.js` lines
26-73. A manifest document maps each service name to a record carrying at
least an `image` field (spec §3); the file system maps resolved paths to
parsed documents. -/

/-- A service's record inside a manifest document: its `image` field plus
the remaining key/value content. -/
structure ServiceRec where
  image : String
  extra : List (String × String)
  deriving Repr, DecidableEq

/-- Manifest document: service name to record (spec §3). -/
abbrev ManifestDoc := List (String × ServiceRec)

/-- The tracked file system: resolved manifest path to parsed document. -/
abbrev FileSystem := List (String × ManifestDoc)

/-- Path resolution used by `modifyImage`: the test file reads the mutated
document back from `./<tenant>/<application>/<environment>/images.yaml`
(`src/test/YamlUtils.test.js` lines 40-41, basePath `""`). -/
def mkManifestPath (basePath tenant application environment : String) : String :=
  basePath ++ "./" ++ tenant ++ "/" ++ application ++ "/" ++ environment ++ "/images.yaml"

/-- Modelled from the spec: `loadYaml(path)` (§4.2 `load`) — implementation
not under `src/`; behaviour pinned by `src/test/YamlUtils.test.js` lines
26-35: a missing/unreadable file throws
`Error trying to read yaml file: <path>`. -/
def loadYaml (fs : FileSystem) (path : String) : Except String ManifestDoc :=
  match lookupA path fs with
  | some d => .ok d
  | none => .error ("Error trying to read yaml file: " ++ path)

/-- Modelled from the spec: `modifyImage(basePath, tenant, application,
environment, service, newImage)` (§4.2 `setImage`) — implementation not
under `src/`; behaviour pinned by `src/test/YamlUtils.test.js` lines 38-73:
it returns the targeted service's previous image value and persists the
document with only that service's `image` field changed; a missing file
throws `Error trying to read yaml file: <path>` and a missing service throws
`Error: no service <service> found in file <path>`. -/
def modifyImage (fs : FileSystem)
    (basePath tenant application environment service newImage : String) :
    Except String (String × FileSystem) :=
  let path := mkManifestPath basePath tenant application environment
  match loadYaml fs path with
  | .error e => .error e
  | .ok d =>
    match lookupA service d with
    | none => .error ("Error: no service " ++ service ++ " found in file " ++ path)
    | some svc =>
      .ok (svc.image, setA path (setA service { svc with image := newImage } d) fs)

/-! ## Reference-name character validity -/

/-- A character a git reference name may contain: no ASCII control
character, no DEL, and none of space, `~`, `^`, `:`, `?`, `*`, `[`, `\`
(the character-level rules of `git check-ref-format`). -/
def isValidRefChar (c : Char) : Bool :=
  !(c.toNat < 32 || c.toNat = 127 || c = ' ' || c = '~' || c = '^' || c = ':'
    || c = '?' || c = '*' || c = '[' || c = '\\')

/-! ## Concrete inputs for closed statements -/

/-- A sample update request: the coordinate's manifest currently holds
`reg/app:1` and the request asks for `reg/app:2`. -/
def sampleInputs : PRInputs :=
  { tenant := "tenant1", application := "release1", environment := "pro",
    service := "proxy", newImage := "reg/app:2", reviewers := ["rev1"] }

/-- Batch item whose request completes and ends unmerged (policy `false`). -/
def okItem : BatchItemEnv :=
  { modifyServicesImage := Except.ok ["reg/app:1"], commitResult := Except.ok (),
    prNumber := 7, reviewersResult := Except.ok (), autoMerge := Except.ok false,
    mergeResult := Except.ok () }

/-- Batch item whose `modifyServicesImage` throws a manifest-read error. -/
def manifestErrorItem : BatchItemEnv :=
  { modifyServicesImage :=
      Except.error "Error trying to read yaml file: ./tenant1/release1/pro/images.yaml",
    commitResult := Except.ok (), prNumber := 8, reviewersResult := Except.ok (),
    autoMerge := Except.ok false, mergeResult := Except.ok () }

/-- Batch item whose request finds every service already at the target image. -/
def noChangeItem : BatchItemEnv :=
  { modifyServicesImage := Except.ok [], commitResult := Except.ok (),
    prNumber := 9, reviewersResult := Except.ok (), autoMerge := Except.ok false,
    mergeResult := Except.ok () }

/-- Run environment whose resolver answers `false` (no auto-merge). -/
def envNoMerge : RunEnv :=
  { newPrNumber := 1, autoMerge := Except.ok false, mergeResult := Except.ok (),
    actionUrl := "https://host/run/1" }

/-- Run environment whose resolver answers `true` and whose merge succeeds. -/
def envMerge : RunEnv :=
  { newPrNumber := 1, autoMerge := Except.ok true, mergeResult := Except.ok (),
    actionUrl := "https://host/run/1" }

/-- Repository state before any run: the source branch still carries the
old image, no update branch, no open PR. -/
def freshState : RepoState :=
  { sourceImage := "reg/app:1", branchImage := none, openPR := none,
    workingImage := "reg/app:1" }

/-- Service record of the `proxy` service in the sample manifest. -/
def proxyRec : ServiceRec := { image := "foo/proxy:dev", extra := [("tag", "v1")] }

/-- `proxy`'s record after the image update. -/
def proxyRecNew : ServiceRec := { image := "foo/proxy:bar", extra := [("tag", "v1")] }

/-- Service record of the untouched `app-server` service. -/
def appServerRec : ServiceRec := { image := "foo/common:pro", extra := [] }

/-- A sample two-service manifest document. -/
def sampleDoc : ManifestDoc := [("proxy", proxyRec), ("app-server", appServerRec)]

/-- A sample file system holding the sample manifest at its resolved path. -/
def sampleFS : FileSystem := [("./tenant1/release1/pro/images.yaml", sampleDoc)]

/-! ## Helper lemmas -/

theorem lookupA_setA_same {α : Type} (k : String) (v : α) (l : List (String × α)) :
    lookupA k (setA k v l) = some v := by
  induction l with
  | nil => simp [setA, lookupA]
  | cons hd tl ih =>
    obtain ⟨k', v'⟩ := hd
    by_cases h : k' = k
    · simp [setA, h, lookupA]
    · simp [setA, h, lookupA, ih]

theorem lookupA_setA_other {α : Type} (k k₂ : String) (v : α) (l : List (String × α))
    (hne : k₂ ≠ k) : lookupA k₂ (setA k v l) = lookupA k₂ l := by
  have hkk : k ≠ k₂ := Ne.symm hne
  induction l with
  | nil => simp [setA, lookupA, hkk]
  | cons hd tl ih =>
    obtain ⟨k', v'⟩ := hd
    by_cases h : k' = k
    · subst h
      simp [setA, lookupA, hkk]
    · simp [setA, h, lookupA, ih]

theorem string_append_left_cancel {a b c : String} (h : a ++ b = a ++ c) : b = c := by
  obtain ⟨da⟩ := a
  obtain ⟨db⟩ := b
  obtain ⟨dc⟩ := c
  apply congrArg String.mk
  have hd : da ++ db = da ++ dc := congrArg String.data h
  exact List.append_cancel_left hd

/-- Unfolding of the coordinator on a real image change. -/
theorem openPRUpdatingImage_ok (env : CoordEnv) (p : PRInputs) (old : String)
    (hmod : env.modifyImage = Except.ok old) (hne : old ≠ p.newImage) :
    openPRUpdatingImage env p =
      ((if tryToMerge env.autoMerge env.mergeResult then
          Outcome.merged (usedPrNumber env)
        else
          Outcome.openedUnmerged (usedPrNumber env)),
       { pushAttempted := true,
         pushFailureWarned := (match env.pushResult with
           | .ok _ => false
           | .error _ => true),
         prCreated := if env.branchOpenPR = 0 then
             some (mkPrTitle p.newImage, mkPrBody env.actionUrl old p.newImage p.service)
           else none,
         prNumber := some (usedPrNumber env),
         annotationWarned :=
           (match env.labelsResult, addPRReviewers p.reviewers env.reviewersResult with
             | .error _, _ => true
             | .ok _, .error _ => true
             | .ok _, .ok _ => false),
         mergeAttempted := mergeAttemptedOf env.autoMerge }) := by
  simp [openPRUpdatingImage, updateImageInFile, hmod, hne]

/-! ## Claim theorems -/

/-- C5: deriving the branch name twice from identical
(tenant, application, environment, service) inputs yields identical output
regardless of `newImage`, `reviewers`, or run time, and two coordinates that
differ only in `service` derive different branch names. -/
theorem branchName_deterministic_and_service_sensitive (p₁ p₂ : PRInputs)
    (ht : p₁.tenant = p₂.tenant) (ha : p₁.application = p₂.application)
    (he : p₁.environment = p₂.environment) :
    (p₁.service = p₂.service → branchNameOf p₁ = branchNameOf p₂) ∧
    (p₁.service ≠ p₂.service → branchNameOf p₁ ≠ branchNameOf p₂) := by
  obtain ⟨t₁, a₁, e₁, s₁, n₁, r₁⟩ := p₁
  obtain ⟨t₂, a₂, e₂, s₂, n₂, r₂⟩ := p₂
  simp only at ht ha he
  subst ht
  subst ha
  subst he
  constructor
  · intro hs
    simp only at hs
    subst hs
    rfl
  · intro hs heq
    apply hs
    simp only [branchNameOf, mkBranchName] at heq
    simp only
    exact string_append_left_cancel heq

/-- C5 witness: at concrete coordinates, equal coordinates with different
`newImage`/`reviewers` share a branch name, and changing only the service
changes it. -/
theorem branchName_deterministic_witness :
    branchNameOf { tenant := "t", application := "a", environment := "e",
                   service := "s", newImage := "img1", reviewers := ["r"] }
      = branchNameOf { tenant := "t", application := "a", environment := "e",
                       service := "s", newImage := "img2", reviewers := [] } ∧
    branchNameOf { tenant := "t", application := "a", environment := "e",
                   service := "s1", newImage := "img", reviewers := [] }
      ≠ branchNameOf { tenant := "t", application := "a", environment := "e",
                       service := "s2", newImage := "img", reviewers := [] } :=
  ⟨(branchName_deterministic_and_service_sensitive
      { tenant := "t", application := "a", environment := "e",
        service := "s", newImage := "img1", reviewers := ["r"] }
      { tenant := "t", application := "a", environment := "e",
        service := "s", newImage := "img2", reviewers := [] }
      rfl rfl rfl).1 rfl,
   (branchName_deterministic_and_service_sensitive
      { tenant := "t", application := "a", environment := "e",
        service := "s1", newImage := "img", reviewers := [] }
      { tenant := "t", application := "a", environment := "e",
        service := "s2", newImage := "img", reviewers := [] }
      rfl rfl rfl).2 (by decide)⟩

/-- C10 counterexample: the constructor embeds the components unsanitised,
so a non-empty tenant containing a space — well-formed by the spec's only
malformedness criterion (emptiness) — produces a branch name carrying a
character that is invalid in a VCS reference. -/
theorem branchName_invalid_char_counterexample :
    ("a b" : String) ≠ "" ∧ ("app" : String) ≠ "" ∧ ("env" : String) ≠ "" ∧
    ("svc" : String) ≠ "" ∧
    (mkBranchName "a b" "app" "env" "svc").data.all isValidRefChar = false := by
  decide

/-- C10 amended: the branch-name template itself adds only characters valid
in a VCS reference, so whenever every character of each coordinate component
is itself valid, the derived branch name contains no invalid character; a
component carrying an invalid character passes through to the name. -/
theorem branchName_valid_chars (t a e s : String)
    (ht : t.data.all isValidRefChar = true)
    (ha : a.data.all isValidRefChar = true)
    (he : e.data.all isValidRefChar = true)
    (hs : s.data.all isValidRefChar = true) :
    (mkBranchName t a e s).data.all isValidRefChar = true := by
  rw [List.all_eq_true] at ht ha he hs ⊢
  intro c hc
  simp only [mkBranchName, String.data_append, List.mem_append] at hc
  have htemplate : ∀ c ∈ ("automated/update-image-" : String).data,
      isValidRefChar c = true := by decide
  have hdash : ∀ c ∈ ("-" : String).data, isValidRefChar c = true := by decide
  rcases hc with ((((((h | h) | h) | h) | h) | h) | h) | h
  · exact htemplate _ h
  · exact ht _ h
  · exact hdash _ h
  · exact ha _ h
  · exact hdash _ h
  · exact he _ h
  · exact hdash _ h
  · exact hs _ h

/-- C10 witness: a concrete coordinate made of valid characters derives a
branch name made of valid characters. -/
theorem branchName_valid_chars_witness :
    (mkBranchName "tenant1" "release.1" "pro" "proxy_svc").data.all isValidRefChar
      = true :=
  branchName_valid_chars "tenant1" "release.1" "pro" "proxy_svc"
    (by decide) (by decide) (by decide) (by decide)

/-- C2: on a real image change, a resolver failure is caught and behaves as
`autoMerge = false` — no merge is attempted and the request ends
`OpenedUnmerged`; the outcome is `Merged` exactly when the resolver answered
`true` and the merge call succeeded, and otherwise it is `OpenedUnmerged`. -/
theorem fail_safe_merge_decision (env : CoordEnv) (p : PRInputs) (old : String)
    (hmod : env.modifyImage = Except.ok old) (hne : old ≠ p.newImage) :
    ((∃ e, env.autoMerge = Except.error e) →
      (openPRUpdatingImage env p).2.mergeAttempted = false ∧
      (openPRUpdatingImage env p).1 = Outcome.openedUnmerged (usedPrNumber env)) ∧
    ((openPRUpdatingImage env p).1 = Outcome.merged (usedPrNumber env) ↔
      env.autoMerge = Except.ok true ∧ env.mergeResult = Except.ok ()) ∧
    ((openPRUpdatingImage env p).1 = Outcome.merged (usedPrNumber env) ∨
      (openPRUpdatingImage env p).1 = Outcome.openedUnmerged (usedPrNumber env)) := by
  rw [openPRUpdatingImage_ok env p old hmod hne]
  refine ⟨?_, ?_, ?_⟩
  · rintro ⟨e, he⟩
    simp [tryToMerge, mergeAttemptedOf, he]
  · rcases hauto : env.autoMerge with e | b
    · simp [tryToMerge, hauto]
    · rcases b with _ | _
      · simp [tryToMerge, hauto]
      · rcases hmerge : env.mergeResult with e | u
        · simp [tryToMerge, hauto, hmerge]
        · simp [tryToMerge, hauto, hmerge]
  · rcases h : tryToMerge env.autoMerge env.mergeResult
    · simp [h]
    · simp [h]

/-- C2 witness: with a resolver that throws, the concrete run attempts no
merge and ends `OpenedUnmerged`; with a resolver answering `true` and a
successful merge call, it ends `Merged`. -/
theorem fail_safe_merge_decision_witness :
    (openPRUpdatingImage
        { branchCreated := true, modifyImage := Except.ok "reg/app:1",
          pushResult := Except.ok (), branchOpenPR := 5, newPrNumber := 9,
          labelsResult := Except.ok (), reviewersResult := Except.ok (),
          autoMerge := Except.error "resolver boom", mergeResult := Except.ok (),
          actionUrl := "u" } sampleInputs).2.mergeAttempted = false ∧
    (openPRUpdatingImage
        { branchCreated := true, modifyImage := Except.ok "reg/app:1",
          pushResult := Except.ok (), branchOpenPR := 5, newPrNumber := 9,
          labelsResult := Except.ok (), reviewersResult := Except.ok (),
          autoMerge := Except.error "resolver boom", mergeResult := Except.ok (),
          actionUrl := "u" } sampleInputs).1
      = Outcome.openedUnmerged
          (usedPrNumber
            { branchCreated := true, modifyImage := Except.ok "reg/app:1",
              pushResult := Except.ok (), branchOpenPR := 5, newPrNumber := 9,
              labelsResult := Except.ok (), reviewersResult := Except.ok (),
              autoMerge := Except.error "resolver boom", mergeResult := Except.ok (),
              actionUrl := "u" }) :=
  (fail_safe_merge_decision
    { branchCreated := true, modifyImage := Except.ok "reg/app:1",
      pushResult := Except.ok (), branchOpenPR := 5, newPrNumber := 9,
      labelsResult := Except.ok (), reviewersResult := Except.ok (),
      autoMerge := Except.error "resolver boom", mergeResult := Except.ok (),
      actionUrl := "u" } sampleInputs "reg/app:1" rfl (by decide)).1
    ⟨"resolver boom", rfl⟩

/-- C6: every error thrown by the manifest-mutation step — not only the
deliberate old = new no-op — is caught by the same handler: the coordinate
is reported as skipped with none of the downstream effects, exactly as a
genuine no-op would be, and its outcome is never `Failed`. -/
theorem mutation_error_reported_as_skip (env : CoordEnv) (p : PRInputs) (e : String)
    (herr : env.modifyImage = Except.error e) :
    openPRUpdatingImage env p = (Outcome.skipped, noEffects) ∧
    openPRUpdatingImage env p
      = openPRUpdatingImage { env with modifyImage := Except.ok p.newImage } p ∧
    (∀ msg, (openPRUpdatingImage env p).1 ≠ Outcome.failed msg) := by
  refine ⟨?_, ?_, ?_⟩
  · simp [openPRUpdatingImage, updateImageInFile, herr]
  · simp [openPRUpdatingImage, updateImageInFile, herr]
  · intro msg
    simp [openPRUpdatingImage, updateImageInFile, herr]

/-- C6 witness: a concrete `ServiceNotFound`-style error from the mutation
step yields the same skipped result as the no-op, with no effects. -/
theorem mutation_error_reported_as_skip_witness :
    openPRUpdatingImage
        { branchCreated := true,
          modifyImage :=
            Except.error "Error: no service proxy found in file ./tenant1/release1/pro/images.yaml",
          pushResult := Except.ok (), branchOpenPR := 0, newPrNumber := 3,
          labelsResult := Except.ok (), reviewersResult := Except.ok (),
          autoMerge := Except.ok true, mergeResult := Except.ok (),
          actionUrl := "u" } sampleInputs
      = (Outcome.skipped, noEffects) :=
  (mutation_error_reported_as_skip
    { branchCreated := true,
      modifyImage :=
        Except.error "Error: no service proxy found in file ./tenant1/release1/pro/images.yaml",
      pushResult := Except.ok (), branchOpenPR := 0, newPrNumber := 3,
      labelsResult := Except.ok (), reviewersResult := Except.ok (),
      autoMerge := Except.ok true, mergeResult := Except.ok (),
      actionUrl := "u" } sampleInputs
    "Error: no service proxy found in file ./tenant1/release1/pro/images.yaml" rfl).1

/-- C8: when the commit-and-push step fails after a real image change, the
failure only produces a warning: the coordinator still reaches the
pull-request step, settles on the same PR number and outcome it would have
reached with a successful push, and the coordinate is neither skipped nor
failed. -/
theorem push_failure_nonfatal (env : CoordEnv) (p : PRInputs) (old e : String)
    (hmod : env.modifyImage = Except.ok old) (hne : old ≠ p.newImage)
    (hpush : env.pushResult = Except.error e) :
    (openPRUpdatingImage env p).2.pushFailureWarned = true ∧
    (openPRUpdatingImage env p).2.prNumber = some (usedPrNumber env) ∧
    (openPRUpdatingImage env p).1
      = (openPRUpdatingImage { env with pushResult := Except.ok () } p).1 ∧
    (openPRUpdatingImage env p).1 ≠ Outcome.skipped ∧
    (∀ msg, (openPRUpdatingImage env p).1 ≠ Outcome.failed msg) := by
  have hmod' : ({ env with pushResult := Except.ok () } : CoordEnv).modifyImage
      = Except.ok old := hmod
  rw [openPRUpdatingImage_ok env p old hmod hne,
    openPRUpdatingImage_ok { env with pushResult := Except.ok () } p old hmod' hne]
  refine ⟨by simp [hpush], by simp, by simp [usedPrNumber], ?_, ?_⟩
  · rcases h : tryToMerge env.autoMerge env.mergeResult <;> simp [h]
  · intro msg
    rcases h : tryToMerge env.autoMerge env.mergeResult <;> simp [h]

/-- C8 witness: a concrete failing push still produces the PR number and the
unmerged outcome of the successful-push run. -/
theorem push_failure_nonfatal_witness :
    (openPRUpdatingImage
        { branchCreated := false, modifyImage := Except.ok "reg/app:1",
          pushResult := Except.error "Unable to commit file!", branchOpenPR := 0,
          newPrNumber := 4, labelsResult := Except.ok (),
          reviewersResult := Except.ok (), autoMerge := Except.ok false,
          mergeResult := Except.ok (), actionUrl := "u" } sampleInputs).2.pushFailureWarned
      = true ∧
    (openPRUpdatingImage
        { branchCreated := false, modifyImage := Except.ok "reg/app:1",
          pushResult := Except.error "Unable to commit file!", branchOpenPR := 0,
          newPrNumber := 4, labelsResult := Except.ok (),
          reviewersResult := Except.ok (), autoMerge := Except.ok false,
          mergeResult := Except.ok (), actionUrl := "u" } sampleInputs).2.prNumber
      = some (usedPrNumber
          { branchCreated := false, modifyImage := Except.ok "reg/app:1",
            pushResult := Except.error "Unable to commit file!", branchOpenPR := 0,
            newPrNumber := 4, labelsResult := Except.ok (),
            reviewersResult := Except.ok (), autoMerge := Except.ok false,
            mergeResult := Except.ok (), actionUrl := "u" }) :=
  ⟨(push_failure_nonfatal
      { branchCreated := false, modifyImage := Except.ok "reg/app:1",
        pushResult := Except.error "Unable to commit file!", branchOpenPR := 0,
        newPrNumber := 4, labelsResult := Except.ok (),
        reviewersResult := Except.ok (), autoMerge := Except.ok false,
        mergeResult := Except.ok (), actionUrl := "u" } sampleInputs "reg/app:1"
      "Unable to commit file!" rfl (by decide) rfl).1,
   (push_failure_nonfatal
      { branchCreated := false, modifyImage := Except.ok "reg/app:1",
        pushResult := Except.error "Unable to commit file!", branchOpenPR := 0,
        newPrNumber := 4, labelsResult := Except.ok (),
        reviewersResult := Except.ok (), autoMerge := Except.ok false,
        mergeResult := Except.ok (), actionUrl := "u" } sampleInputs "reg/app:1"
      "Unable to commit file!" rfl (by decide) rfl).2.1⟩

/-- C7: when an open pull request already targets the branch, its number is
reused and no pull request is created; only when none exists is one created,
and its body names the service and the old-to-new image transition. -/
theorem pull_request_reuse (env : CoordEnv) (p : PRInputs) (old : String)
    (hmod : env.modifyImage = Except.ok old) (hne : old ≠ p.newImage) :
    (env.branchOpenPR ≠ 0 →
      (openPRUpdatingImage env p).2.prCreated = none ∧
      (openPRUpdatingImage env p).2.prNumber = some env.branchOpenPR) ∧
    (env.branchOpenPR = 0 →
      (openPRUpdatingImage env p).2.prCreated
        = some (mkPrTitle p.newImage, mkPrBody env.actionUrl old p.newImage p.service) ∧
      (openPRUpdatingImage env p).2.prNumber = some env.newPrNumber ∧
      (∃ x y, mkPrBody env.actionUrl old p.newImage p.service = x ++ p.service ++ y) ∧
      (∃ x y z, mkPrBody env.actionUrl old p.newImage p.service
        = x ++ old ++ y ++ p.newImage ++ z)) := by
  rw [openPRUpdatingImage_ok env p old hmod hne]
  constructor
  · intro hop
    simp [hop, usedPrNumber]
  · intro hop
    refine ⟨by simp [hop], by simp [hop, usedPrNumber], ?_, ?_⟩
    · refine ⟨"🤖 Automated PR created in [this](" ++ env.actionUrl
        ++ ") workflow execution \n\n" ++ "Updated image `" ++ old ++ "` to `"
        ++ p.newImage ++ "` in service `", "`", ?_⟩
      simp [mkPrBody, String.append_assoc]
    · refine ⟨"🤖 Automated PR created in [this](" ++ env.actionUrl
        ++ ") workflow execution \n\n" ++ "Updated image `", "` to `",
        "` in service `" ++ p.service ++ "`", ?_⟩
      simp [mkPrBody, String.append_assoc]

/-- C7 witness: with an open PR numbered 5 the concrete run creates nothing
and reuses 5; with no open PR it creates the PR with the template title and
body. -/
theorem pull_request_reuse_witness :
    (openPRUpdatingImage
        { branchCreated := false, modifyImage := Except.ok "reg/app:1",
          pushResult := Except.ok (), branchOpenPR := 5, newPrNumber := 9,
          labelsResult := Except.ok (), reviewersResult := Except.ok (),
          autoMerge := Except.ok false, mergeResult := Except.ok (),
          actionUrl := "u" } sampleInputs).2.prCreated = none ∧
    (openPRUpdatingImage
        { branchCreated := false, modifyImage := Except.ok "reg/app:1",
          pushResult := Except.ok (), branchOpenPR := 5, newPrNumber := 9,
          labelsResult := Except.ok (), reviewersResult := Except.ok (),
          autoMerge := Except.ok false, mergeResult := Except.ok (),
          actionUrl := "u" } sampleInputs).2.prNumber = some 5 ∧
    (openPRUpdatingImage
        { branchCreated := false, modifyImage := Except.ok "reg/app:1",
          pushResult := Except.ok (), branchOpenPR := 0, newPrNumber := 9,
          labelsResult := Except.ok (), reviewersResult := Except.ok (),
          autoMerge := Except.ok false, mergeResult := Except.ok (),
          actionUrl := "u" } sampleInputs).2.prCreated
      = some (mkPrTitle "reg/app:2", mkPrBody "u" "reg/app:1" "reg/app:2" "proxy") :=
  ⟨((pull_request_reuse
      { branchCreated := false, modifyImage := Except.ok "reg/app:1",
        pushResult := Except.ok (), branchOpenPR := 5, newPrNumber := 9,
        labelsResult := Except.ok (), reviewersResult := Except.ok (),
        autoMerge := Except.ok false, mergeResult := Except.ok (),
        actionUrl := "u" } sampleInputs "reg/app:1" rfl (by decide)).1
      (by decide)).1,
   ((pull_request_reuse
      { branchCreated := false, modifyImage := Except.ok "reg/app:1",
        pushResult := Except.ok (), branchOpenPR := 5, newPrNumber := 9,
        labelsResult := Except.ok (), reviewersResult := Except.ok (),
        autoMerge := Except.ok false, mergeResult := Except.ok (),
        actionUrl := "u" } sampleInputs "reg/app:1" rfl (by decide)).1
      (by decide)).2,
   ((pull_request_reuse
      { branchCreated := false, modifyImage := Except.ok "reg/app:1",
        pushResult := Except.ok (), branchOpenPR := 0, newPrNumber := 9,
        labelsResult := Except.ok (), reviewersResult := Except.ok (),
        autoMerge := Except.ok false, mergeResult := Except.ok (),
        actionUrl := "u" } sampleInputs "reg/app:1" rfl (by decide)).2
      rfl).1⟩

/-- C3 counterexample: when the first run's pull request stays unmerged, the
second run resets the working tree to the unchanged source branch, finds a
real image change again, and ends `OpenedUnmerged` reusing the open PR — it
does not yield a skip as the claim states. -/
theorem second_run_without_merge_not_skipped :
    (runOnce envNoMerge sampleInputs
        (runOnce envNoMerge sampleInputs freshState).2.1).1
      = Outcome.openedUnmerged 1 ∧
    (runOnce envNoMerge sampleInputs
        (runOnce envNoMerge sampleInputs freshState).2.1).1
      ≠ Outcome.skipped := by
  decide

/-- C3 amended: when the manifest's old value equals the requested image the
coordinator skips with no push, no PR creation and no merge attempt; a
second run with the same coordinate and image never creates a new pull
request (an open PR is reused); and the second run yields a skip when the
first run's merge landed the image on the source branch — while an unmerged
first run leaves the source branch unchanged, so the second run re-pushes
and reuses the PR instead of skipping. -/
theorem noop_skip_and_second_run (env₁ env₂ : RunEnv) (p : PRInputs) (st : RepoState) :
    (st.sourceImage = p.newImage →
      (runOnce env₁ p st).1 = Outcome.skipped ∧
      (runOnce env₁ p st).2.2 = noEffects) ∧
    ((runOnce env₂ p (runOnce env₁ p st).2.1).2.2.prCreated = none) ∧
    (∀ n, (runOnce env₁ p st).1 = Outcome.merged n →
      (runOnce env₂ p (runOnce env₁ p st).2.1).1 = Outcome.skipped) := by
  obtain ⟨src, bi, opr, wi⟩ := st
  by_cases h1 : src = p.newImage
  · refine ⟨fun _ => ?_, ?_, ?_⟩
    · simp [runOnce, h1, noEffects]
    · simp [runOnce, h1, noEffects]
    · intro n hn
      simp [runOnce, h1] at hn
  · refine ⟨fun h => absurd h h1, ?_, ?_⟩
    · rcases hm : tryToMerge env₁.autoMerge env₁.mergeResult
      · cases opr <;> simp [runOnce, h1, hm, noEffects] <;> (split <;> rfl)
      · cases opr <;> simp [runOnce, h1, hm, noEffects]
    · intro n hn
      rcases hm : tryToMerge env₁.autoMerge env₁.mergeResult
      · cases opr <;> simp [runOnce, h1, hm] at hn
      · cases opr <;> simp [runOnce, h1, hm, noEffects]

/-- C3 witness: a concrete no-op coordinate skips immediately, and after a
first run whose merge succeeded the second run skips. -/
theorem noop_skip_and_second_run_witness :
    (runOnce envNoMerge sampleInputs
        { sourceImage := "reg/app:2", branchImage := none, openPR := none,
          workingImage := "reg/app:2" }).1 = Outcome.skipped ∧
    (runOnce envMerge sampleInputs
        (runOnce envMerge sampleInputs freshState).2.1).1 = Outcome.skipped :=
  ⟨((noop_skip_and_second_run envNoMerge envNoMerge sampleInputs
      { sourceImage := "reg/app:2", branchImage := none, openPR := none,
        workingImage := "reg/app:2" }).1 rfl).1,
   (noop_skip_and_second_run envMerge envMerge sampleInputs freshState).2.2 1
     (by decide)⟩

/-- C1: the batch loop does not isolate per-request failures or skips. In a
batch of three requests, a manifest-read error thrown by the second request
escapes the loop into the run-level catch and the third request is never
processed (one outcome instead of three); likewise a second request whose
images did not change `break`s the loop after its skip, leaving the third
request unprocessed (two outcomes instead of three). -/
theorem batch_stops_on_failure_or_skip :
    runBatch [okItem, manifestErrorItem, okItem]
      = ([Outcome.openedUnmerged 7],
         BatchStop.batchFailed
           "Error trying to read yaml file: ./tenant1/release1/pro/images.yaml") ∧
    (runBatch [okItem, manifestErrorItem, okItem]).1.length ≠ 3 ∧
    runBatch [okItem, noChangeItem, okItem]
      = ([Outcome.openedUnmerged 7, Outcome.skipped], BatchStop.skipBreak) ∧
    (runBatch [okItem, noChangeItem, okItem]).1.length ≠ 3 := by
  decide

/-- C4 counterexample: `determineAutoMerge`, whose behaviour is pinned by
`src/test/YamlUtils.test.js` line 15 (environment `dev` is expected to
return `true`), returns the configured boolean for environment `dev` instead
of failing with `InvalidEnvironment`. -/
theorem determineAutoMerge_dev_returns_boolean :
    determineAutoMerge (some [("releaseA", [("dev", true)])])
        "fixtures/tenant2" "releaseA" "dev"
      = Except.ok true := by
  decide

/-- C4 amended: the enumerated-set validation belongs to `autoMergeFromYaml`:
it fails with `ApplicationNotFound` (naming the application) when the
application key is absent, fails with `InvalidEnvironment` (naming the value
and the set `[des, pre, pro]`, so in particular for `dev`) when the
environment is outside the supported set, and otherwise returns the
configured boolean. `determineAutoMerge` applies no such restriction: it
returns the configured boolean for any environment key present (including
`dev`) and reports any lookup failure as a single environment-not-found
error naming the environment, application and tenant. -/
theorem policy_resolution (d : PolicyDoc) (tenant application environment : String) :
    (lookupA application d = none →
      autoMergeFromYaml (some d) application environment
        = Except.error (PolicyError.applicationNotFound application)) ∧
    (∀ entry, lookupA application d = some entry →
      environment ∉ supportedEnvironments →
      autoMergeFromYaml (some d) application environment
        = Except.error (PolicyError.invalidEnvironment environment supportedEnvironments)) ∧
    (∀ entry b, lookupA application d = some entry →
      environment ∈ supportedEnvironments → lookupA environment entry = some b →
      autoMergeFromYaml (some d) application environment = Except.ok b) ∧
    ("dev" ∉ supportedEnvironments) ∧
    (∀ entry b, lookupA application d = some entry →
      lookupA environment entry = some b →
      determineAutoMerge (some d) tenant application environment = Except.ok b) ∧
    (∀ entry, lookupA application d = some entry →
      lookupA environment entry = none →
      determineAutoMerge (some d) tenant application environment
        = Except.error ("Enviroment " ++ environment ++ " not found for application "
            ++ application ++ " for tenant " ++ tenant)) := by
  refine ⟨?_, ?_, ?_, by decide, ?_, ?_⟩
  · intro h
    simp [autoMergeFromYaml, h]
  · intro entry happ henv
    simp [autoMergeFromYaml, happ, henv]
  · intro entry b happ henv hb
    simp [autoMergeFromYaml, happ, henv, hb]
  · intro entry b happ hb
    simp [determineAutoMerge, happ, hb]
  · intro entry happ hb
    simp [determineAutoMerge, happ, hb]

/-- C4 witness: on the document `{app1: {des: true, pre: true, pro: false}}`
the missing application fails with `ApplicationNotFound "app2"`, environment
`dev` fails with `InvalidEnvironment` naming `[des, pre, pro]`, and `des`
resolves to `true`; and `determineAutoMerge` resolves a configured `dev` key
and reports a missing environment with the combined message. -/
theorem policy_resolution_witness :
    autoMergeFromYaml (some [("app1", [("des", true), ("pre", true), ("pro", false)])])
        "app2" "des"
      = Except.error (PolicyError.applicationNotFound "app2") ∧
    autoMergeFromYaml (some [("app1", [("des", true), ("pre", true), ("pro", false)])])
        "app1" "dev"
      = Except.error (PolicyError.invalidEnvironment "dev" supportedEnvironments) ∧
    autoMergeFromYaml (some [("app1", [("des", true), ("pre", true), ("pro", false)])])
        "app1" "des"
      = Except.ok true ∧
    determineAutoMerge (some [("releaseB", [("dev", false)])]) "tenant2" "releaseB" "dev"
      = Except.ok false ∧
    determineAutoMerge (some [("release1", [("pre", true)])]) "tenant1" "release1" "des"
      = Except.error "Enviroment des not found for application release1 for tenant tenant1" :=
  ⟨(policy_resolution [("app1", [("des", true), ("pre", true), ("pro", false)])]
      "t" "app2" "des").1 (by decide),
   (policy_resolution [("app1", [("des", true), ("pre", true), ("pro", false)])]
      "t" "app1" "dev").2.1 [("des", true), ("pre", true), ("pro", false)]
      (by decide) (by decide),
   (policy_resolution [("app1", [("des", true), ("pre", true), ("pro", false)])]
      "t" "app1" "des").2.2.1 [("des", true), ("pre", true), ("pro", false)] true
      (by decide) (by decide) (by decide),
   (policy_resolution [("releaseB", [("dev", false)])]
      "tenant2" "releaseB" "dev").2.2.2.2.1 [("dev", false)] false
      (by decide) (by decide),
   (policy_resolution [("release1", [("pre", true)])]
      "tenant1" "release1" "des").2.2.2.2.2 [("pre", true)]
      (by decide) (by decide)⟩

/-- C9: `setImage` (`modifyImage`) followed by `load` round-trips: it
returns the targeted service's previous image value, a subsequent load
yields the new value for that service with the rest of its record intact,
every other service's entry is unchanged, and every other file of the store
is unchanged. -/
theorem modifyImage_roundTrip (fs : FileSystem)
    (basePath tenant application environment service newImage : String)
    (d : ManifestDoc) (svc : ServiceRec)
    (hload : loadYaml fs (mkManifestPath basePath tenant application environment)
      = Except.ok d)
    (hsvc : lookupA service d = some svc) :
    modifyImage fs basePath tenant application environment service newImage
      = Except.ok (svc.image,
          setA (mkManifestPath basePath tenant application environment)
            (setA service { svc with image := newImage } d) fs) ∧
    loadYaml
        (setA (mkManifestPath basePath tenant application environment)
          (setA service { svc with image := newImage } d) fs)
        (mkManifestPath basePath tenant application environment)
      = Except.ok (setA service { svc with image := newImage } d) ∧
    lookupA service (setA service { svc with image := newImage } d)
      = some { svc with image := newImage } ∧
    ({ svc with image := newImage } : ServiceRec).image = newImage ∧
    ({ svc with image := newImage } : ServiceRec).extra = svc.extra ∧
    (∀ s₂, s₂ ≠ service →
      lookupA s₂ (setA service { svc with image := newImage } d) = lookupA s₂ d) ∧
    (∀ q, q ≠ mkManifestPath basePath tenant application environment →
      lookupA q
          (setA (mkManifestPath basePath tenant application environment)
            (setA service { svc with image := newImage } d) fs)
        = lookupA q fs) := by
  have hfs : lookupA (mkManifestPath basePath tenant application environment) fs
      = some d := by
    revert hload
    unfold loadYaml
    rcases lookupA (mkManifestPath basePath tenant application environment) fs with _ | d'
    · intro h
      cases h
    · intro h
      cases h
      rfl
  refine ⟨?_, ?_, ?_, rfl, rfl, ?_, ?_⟩
  · simp [modifyImage, loadYaml, hfs, hsvc]
  · simp [loadYaml, lookupA_setA_same]
  · exact lookupA_setA_same service { svc with image := newImage } d
  · intro s₂ hne
    exact lookupA_setA_other service s₂ { svc with image := newImage } d hne
  · intro q hne
    exact lookupA_setA_other (mkManifestPath basePath tenant application environment) q
      (setA service { svc with image := newImage } d) fs hne

/-- C9 witness: a concrete two-service store round-trips — the old value
comes back, a reload of the written store yields the new value for the
targeted service, and the untouched service's entry is unchanged. -/
theorem modifyImage_roundTrip_witness :
    modifyImage sampleFS "" "tenant1" "release1" "pro" "proxy" "foo/proxy:bar"
      = Except.ok ("foo/proxy:dev",
          setA (mkManifestPath "" "tenant1" "release1" "pro")
            (setA "proxy" proxyRecNew sampleDoc) sampleFS) ∧
    lookupA "proxy" (setA "proxy" proxyRecNew sampleDoc) = some proxyRecNew ∧
    lookupA "app-server" (setA "proxy" proxyRecNew sampleDoc)
      = lookupA "app-server" sampleDoc :=
  ⟨(modifyImage_roundTrip sampleFS "" "tenant1" "release1" "pro" "proxy" "foo/proxy:bar"
      sampleDoc proxyRec (by decide) (by decide)).1,
   (modifyImage_roundTrip sampleFS "" "tenant1" "release1" "pro" "proxy" "foo/proxy:bar"
      sampleDoc proxyRec (by decide) (by decide)).2.2.1,
   (modifyImage_roundTrip sampleFS "" "tenant1" "release1" "pro" "proxy" "foo/proxy:bar"
      sampleDoc proxyRec (by decide) (by decide)).2.2.2.2.2.1 "app-server" (by decide)⟩

end StateRepoPR
